import Mathlib

/-!
# Millpoint QA — verification of the Quality Workflow Engine

Shallow embedding of the workflow-relevant logic of `app.py` (Flask/SQLite
quality-control application): the tolerance evaluator, the exit-control
sampler, the job lifecycle stage update, the exit-control recording and
completion operations, the supplier error-report creation, the error-report
status update, and the part registry.  SQL rows become Lean structures,
`CURRENT_TIMESTAMP` becomes an abstract `Timestamp` argument, nullable
columns become `Option`, and each request handler becomes a pure function
from the rows it reads to the rows it writes.
-/

namespace Millpoint

/-- Abstract timestamp; `CURRENT_TIMESTAMP` is passed in as the value `now`. -/
abbrev Timestamp := Nat

/-! ## Tolerance evaluator (`calculate_pass_fail`, app.py:3369) -/

/-- A row of `job_dimensions` as read by `calculate_pass_fail`:
`nominal_value`, optional `tolerance_plus` / `tolerance_minus`, and `unit`.
Numeric values are modelled as rationals. -/
structure Dimension where
  nominal_value : ℚ
  tolerance_plus : Option ℚ
  tolerance_minus : Option ℚ
  unit : String
deriving DecidableEq, Repr

inductive PassFail where
  | pass
  | fail
deriving DecidableEq, Repr

/-- Function `calculate_pass_fail(dimension, actual_value)` from app.py:3369:
go/no-go dimensions pass iff the reading is `1`; otherwise, when both
tolerances are present, pass iff the value lies within
`[nominal + tol_minus, nominal + tol_plus]`; otherwise pass. -/
def calculate_pass_fail (dimension : Dimension) (actual_value : ℚ) : PassFail :=
  let nominal := dimension.nominal_value
  let tol_plus := dimension.tolerance_plus
  let tol_minus := dimension.tolerance_minus
  if dimension.unit = "go/nogo" then
    if actual_value = 1 then .pass else .fail
  else
    match tol_plus, tol_minus with
    | some tp, some tm =>
      let upper_limit := nominal + tp
      let lower_limit := nominal + tm
      if lower_limit ≤ actual_value ∧ actual_value ≤ upper_limit then .pass else .fail
    | _, _ => .pass

/-! ## Exit-control sampler (`calculate_exit_control_samples`, app.py:1423) -/

/-- The `while part <= lot_quantity: samples.append(part); part += 10` loop
of `calculate_exit_control_samples`. -/
def sampleLoop (lot_quantity : Nat) (part : Nat) : List Nat :=
  if part ≤ lot_quantity then part :: sampleLoop lot_quantity (part + 10) else []
termination_by lot_quantity + 1 - part
decreasing_by omega

/-- Function `calculate_exit_control_samples(lot_quantity)` from app.py:1423:
positions `1 .. min(5, lot)` (the Python loop is
`range(1, min(6, lot_quantity + 1))`), then every 10th position from 15
while the lot quantity is exceeded 5. -/
def calculate_exit_control_samples (lot_quantity : Nat) : List Nat :=
  List.range' 1 (min 6 (lot_quantity + 1) - 1) ++
    (if 5 < lot_quantity then sampleLoop lot_quantity 15 else [])

/-- Membership in the tail loop: exactly the positions `part, part+10, …`
up to the lot quantity. -/
theorem mem_sampleLoop (lot_quantity : Nat) :
    ∀ part i, i ∈ sampleLoop lot_quantity part ↔
      part ≤ i ∧ i ≤ lot_quantity ∧ (i - part) % 10 = 0 := by
  intro part
  induction part using sampleLoop.induct lot_quantity with
  | case1 part hle ih =>
    intro i
    rw [sampleLoop, if_pos hle, List.mem_cons, ih i]
    omega
  | case2 part hgt =>
    intro i
    rw [sampleLoop, if_neg hgt, List.mem_nil_iff, false_iff]
    omega

/-! ## Job lifecycle stage update (`job_update_stage`, app.py:1843) -/

/-- A row of the `jobs` table (schema at app.py:169). -/
structure Job where
  id : Nat
  po_number : String
  internal_job_number : Option String
  customer_id : Option Nat
  part_id : Option Nat
  part_number : String
  part_revision : Option String
  part_description : Option String
  quantity : Int
  due_date : Option String
  workflow_stage : String
  drawing_number : Option String
  revision_verified : Int
  revision_verified_by : Option Nat
  revision_verified_at : Option Timestamp
  special_requirements : Option String
  created_at : Timestamp
  updated_at : Timestamp
  completed_at : Option Timestamp
deriving DecidableEq, Repr

/-- A row of `audit_logs` as written by `log_audit` (app.py:1403). -/
structure AuditEntry where
  user_id : Option Nat
  action : String
  entity_type : String
  entity_id : Nat
  description : Option String
  changes : Option String
deriving DecidableEq, Repr

/-- The `valid_stages` list of `job_update_stage` (app.py:1853). -/
def valid_stages : List String :=
  ["po_receipt", "revision_check", "material_control", "in_process",
   "external_process", "exit_control", "complete", "on_hold"]

/-- Handler `job_update_stage` (app.py:1843) on a job that exists: validates the
requested stage against `valid_stages`; on success updates `workflow_stage`
(stamping `completed_at` only when the new stage is `complete`) and appends
a `status_change` audit entry; on an invalid stage it flashes an error and
redirects, touching nothing.  Returns the job row, the audit log and
whether the update was accepted. -/
def job_update_stage (now : Timestamp) (uid : Option Nat) (job : Job)
    (audit : List AuditEntry) (new_stage : String) : Job × List AuditEntry × Bool :=
  if new_stage ∈ valid_stages then
    let job' :=
      if new_stage = "complete" then
        { job with workflow_stage := new_stage, completed_at := some now, updated_at := now }
      else
        { job with workflow_stage := new_stage, updated_at := now }
    let entry : AuditEntry :=
      { user_id := uid, action := "status_change", entity_type := "job", entity_id := job.id,
        description := some ("Changed stage from " ++ job.workflow_stage ++ " to " ++ new_stage),
        changes := none }
    (job', audit ++ [entry], true)
  else
    (job, audit, false)

/-- A job that sits in stage `complete` with `completed_at` stamped. -/
def sampleCompletedJob : Job :=
  { id := 1, po_number := "PO-1", internal_job_number := some "JOB00001", customer_id := none,
    part_id := none, part_number := "P-1", part_revision := none, part_description := none,
    quantity := 10, due_date := none, workflow_stage := "complete", drawing_number := none,
    revision_verified := 0, revision_verified_by := none, revision_verified_at := none,
    special_requirements := none, created_at := 0, updated_at := 0, completed_at := some 5 }

/-! ## Exit-control recording and completion (app.py:3167 and app.py:3212) -/

/-- A row of `exit_controls` (schema at app.py:316). -/
structure ExitControl where
  id : Nat
  job_id : Nat
  inspector_id : Option Nat
  inspection_date : Option Timestamp
  lot_quantity : Nat
  overall_status : String
  notes : Option String
  created_at : Timestamp
deriving DecidableEq, Repr

/-- A row of `exit_control_samples` (schema at app.py:332); `part_number`
is the 1-based position of the unit in the lot, the `_ok` flags and
`overall_pass` are nullable 0/1 columns. -/
structure ExitControlSample where
  id : Nat
  exit_control_id : Nat
  part_number : Nat
  dimensions_ok : Option Bool
  visual_ok : Option Bool
  surface_ok : Option Bool
  overall_pass : Option Bool
  notes : Option String
  inspected_at : Option Timestamp
deriving DecidableEq, Repr

/-- The `UPDATE exit_control_samples SET … WHERE id = ?` statement of
`exit_control_record_sample` (app.py:3185), applied to the rows of the exit
control. -/
def recordSampleUpdate (now : Timestamp) (sample_id : Nat)
    (dimensions_ok visual_ok surface_ok : Bool) (notes : String)
    (samples : List ExitControlSample) : List ExitControlSample :=
  samples.map fun t =>
    if t.id = sample_id then
      { t with dimensions_ok := some dimensions_ok, visual_ok := some visual_ok,
               surface_ok := some surface_ok,
               overall_pass := some (dimensions_ok && visual_ok && surface_ok),
               notes := some notes, inspected_at := some now }
    else t

/-- Handler `exit_control_record_sample` (app.py:3167): looks up the sample by id
within the exit control (redirecting with no change when absent), stores the
three sub-checks and their strict AND as `overall_pass`, then — when every
sample of the lot is inspected — sets the lot `overall_status` to
`passed`/`failed` and, when all passed, moves the parent job to `complete`
(stamping `completed_at`) only if the job is still in `exit_control`
(`UPDATE jobs … WHERE id = ? AND workflow_stage = 'exit_control'`).
Arguments are the exit-control row, all of its sample rows, and the parent
job row; the result is their new values. -/
def exit_control_record_sample (now : Timestamp) (ec : ExitControl)
    (samples : List ExitControlSample) (job : Job) (sample_id : Nat)
    (dimensions_ok visual_ok surface_ok : Bool) (notes : String) :
    ExitControl × List ExitControlSample × Job :=
  match samples.find? (fun t => t.id == sample_id && t.exit_control_id == ec.id) with
  | none => (ec, samples, job)
  | some _ =>
    let samples' := recordSampleUpdate now sample_id dimensions_ok visual_ok surface_ok
      notes samples
    let all_inspected := samples'.all fun t => t.overall_pass.isSome
    if all_inspected then
      let all_passed := samples'.all fun t => t.overall_pass == some true
      let status := if all_passed then "passed" else "failed"
      let job' :=
        if all_passed then
          if job.workflow_stage = "exit_control" then
            { job with workflow_stage := "complete", completed_at := some now }
          else job
        else job
      ({ ec with overall_status := status }, samples', job')
    else
      (ec, samples', job)

/-- Handler `exit_control_complete` (app.py:3212): refuses (flash error, no write)
while any sample is uninspected; otherwise sets the lot `overall_status`
from the samples and, when all passed, moves the parent job to `complete`
with `completed_at` stamped — `UPDATE jobs … WHERE id = ?`, with no
condition on the job's current stage.  The boolean result records whether
the completion was accepted. -/
def exit_control_complete (now : Timestamp) (ec : ExitControl)
    (samples : List ExitControlSample) (job : Job) :
    (ExitControl × Job) × Bool :=
  let uninspected := samples.filter fun t => t.overall_pass == none
  if uninspected.isEmpty then
    let all_passed := samples.all fun t => t.overall_pass == some true
    let status := if all_passed then "passed" else "failed"
    let job' :=
      if all_passed then { job with workflow_stage := "complete", completed_at := some now }
      else job
    (({ ec with overall_status := status }, job'), true)
  else
    ((ec, job), false)

/-! ## Nonconformance reports (app.py:2641, 2696, 2782) -/

/-- A row of `material_controls` — schema at app.py:231; note the schema
declares no `updated_at` column. -/
structure MaterialControl where
  id : Nat
  job_id : Nat
  inspector_id : Option Nat
  inspection_date : Option Timestamp
  material_type : String
  supplier_id : Option Nat
  batch_number : Option String
  quantity_received : Option String
  certificate_matches : Int
  visual_ok : Int
  dimensions_ok : Option Int
  status : String
  notes : Option String
  created_at : Timestamp
deriving DecidableEq, Repr

/-- A row of `external_processes` (schema at app.py:254); this table does
have `updated_at`. -/
structure ExternalProcess where
  id : Nat
  job_id : Nat
  inspector_id : Option Nat
  process_type : String
  process_description : Option String
  supplier_id : Option Nat
  sent_date : Option String
  received_date : Option String
  inspection_date : Option Timestamp
  visual_ok : Int
  thickness_ok : Option Int
  color_ok : Option Int
  adhesion_ok : Option Int
  status : String
  notes : Option String
  created_at : Timestamp
  updated_at : Timestamp
deriving DecidableEq, Repr

/-- A row of `error_reports` (schema at app.py:348 plus the migrated
columns `error_type`, `supplier_id`, `material_control_id`,
`external_process_id`). -/
structure ErrorReport where
  id : Nat
  job_id : Nat
  reported_by : Option Nat
  workflow_stage : String
  found_date : Option Timestamp
  severity : String
  description : String
  affected_quantity : Option Int
  disposition : Option String
  root_cause : Option String
  corrective_action : Option String
  status : String
  assigned_to : Option Nat
  resolved_date : Option Timestamp
  closed_date : Option Timestamp
  error_type : String
  supplier_id : Option Nat
  material_control_id : Option Nat
  external_process_id : Option Nat
  created_at : Timestamp
  updated_at : Timestamp
deriving DecidableEq, Repr

/-- The columns of `material_controls`, copied from the `CREATE TABLE`
statement at app.py:231. -/
def material_controls_columns : List String :=
  ["id", "job_id", "inspector_id", "inspection_date", "material_type", "supplier_id",
   "batch_number", "quantity_received", "certificate_matches", "visual_ok",
   "dimensions_ok", "status", "notes", "created_at"]

/-- The columns of `external_processes`, copied from the `CREATE TABLE`
statement at app.py:254. -/
def external_processes_columns : List String :=
  ["id", "job_id", "inspector_id", "process_type", "process_description", "supplier_id",
   "sent_date", "received_date", "inspection_date", "visual_ok", "thickness_ok",
   "color_ok", "adhesion_ok", "status", "notes", "created_at", "updated_at"]

/-- SQLite accepts an `UPDATE … SET` statement only when every assigned
column exists in the table; otherwise it raises
`OperationalError: no such column`.  This models that check for the
assignment lists used below. -/
def updateColumnsOk (tableColumns setColumns : List String) : Bool :=
  setColumns.all fun c => tableColumns.contains c

/-- Handler `material_error_report` POST branch (app.py:2657-2690): inserts an
error report with `workflow_stage = 'material_control'`,
`error_type = 'material_supplier'`, `status = 'open'` and the material
control's supplier, then — if the material control is not already
`rejected` — runs
`UPDATE material_controls SET status = ?, updated_at = CURRENT_TIMESTAMP
WHERE id = ?` (app.py:2686).  The update is modelled through
`updateColumnsOk` against the table's schema; since `material_controls`
has no `updated_at` column, that statement raises an error instead of
flipping the status. -/
def material_error_report (now : Timestamp) (uid : Option Nat) (next_report_id : Nat)
    (mc : MaterialControl) (severity description : String)
    (affected_quantity : Option Int) : ErrorReport × Except String MaterialControl :=
  let report : ErrorReport :=
    { id := next_report_id, job_id := mc.job_id, reported_by := uid,
      workflow_stage := "material_control", found_date := some now, severity := severity,
      description := description, affected_quantity := affected_quantity,
      disposition := none, root_cause := none, corrective_action := none,
      status := "open", assigned_to := none, resolved_date := none, closed_date := none,
      error_type := "material_supplier", supplier_id := mc.supplier_id,
      material_control_id := some mc.id, external_process_id := none,
      created_at := now, updated_at := now }
  let mcResult : Except String MaterialControl :=
    if mc.status ≠ "rejected" then
      if updateColumnsOk material_controls_columns ["status", "updated_at"] then
        .ok { mc with status := "rejected" }
      else
        .error "no such column: updated_at"
    else
      .ok mc
  (report, mcResult)

/-- Handler `external_error_report` POST branch (app.py:2712-2745): inserts an
error report with `workflow_stage = 'external_process'`,
`error_type = 'external_supplier'`, `status = 'open'` and the external
process's supplier, then — if the record is not already `rejected` — runs
`UPDATE external_processes SET status = ?, updated_at = CURRENT_TIMESTAMP
WHERE id = ?` (app.py:2741), which succeeds since `external_processes`
has both columns. -/
def external_error_report (now : Timestamp) (uid : Option Nat) (next_report_id : Nat)
    (ep : ExternalProcess) (severity description : String)
    (affected_quantity : Option Int) : ErrorReport × Except String ExternalProcess :=
  let report : ErrorReport :=
    { id := next_report_id, job_id := ep.job_id, reported_by := uid,
      workflow_stage := "external_process", found_date := some now, severity := severity,
      description := description, affected_quantity := affected_quantity,
      disposition := none, root_cause := none, corrective_action := none,
      status := "open", assigned_to := none, resolved_date := none, closed_date := none,
      error_type := "external_supplier", supplier_id := ep.supplier_id,
      material_control_id := none, external_process_id := some ep.id,
      created_at := now, updated_at := now }
  let epResult : Except String ExternalProcess :=
    if ep.status ≠ "rejected" then
      if updateColumnsOk external_processes_columns ["status", "updated_at"] then
        .ok { ep with status := "rejected", updated_at := now }
      else
        .error "no such column: updated_at"
    else
      .ok ep
  (report, epResult)

/-- Handler `error_report_update` (app.py:2782) on an existing report: dispatches
on the `action` form field; `update` rewrites the disposition fields,
`resolve`/`close` set the status and stamp the matching date, `reopen`
sets `status = 'open'` and nulls both `resolved_date` and `closed_date`;
any other action changes nothing. -/
def error_report_update (now : Timestamp) (er : ErrorReport) (action : String)
    (disposition root_cause corrective_action : Option String)
    (assigned_to : Option Nat) : ErrorReport :=
  if action = "update" then
    { er with disposition := disposition, root_cause := root_cause,
              corrective_action := corrective_action, assigned_to := assigned_to,
              updated_at := now }
  else if action = "resolve" then
    { er with status := "resolved", resolved_date := some now, updated_at := now }
  else if action = "close" then
    { er with status := "closed", closed_date := some now, updated_at := now }
  else if action = "reopen" then
    { er with status := "open", resolved_date := none, closed_date := none,
              updated_at := now }
  else er

/-! ## Part registry (`get_or_create_part`, app.py:76) -/

/-- A row of `parts` (schema at app.py:157); `part_revision` is `NOT NULL
DEFAULT ''` and `(part_number, part_revision)` is unique. -/
structure Part where
  id : Nat
  part_number : String
  part_revision : String
  part_description : Option String
  created_at : Timestamp
  updated_at : Timestamp
deriving DecidableEq, Repr

/-- The `parts` table: its rows plus the next `AUTOINCREMENT` id. -/
structure PartsTable where
  rows : List Part
  next_id : Nat
deriving DecidableEq, Repr

/-- Python truthiness of an optional string: `None` and `''` are falsy. -/
def pyTruthy : Option String → Bool
  | none => false
  | some s => !(s == "")

/-- Function `get_or_create_part(part_number, part_revision, part_description)`
(app.py:76): normalizes the revision with `part_revision or ''`, looks up
`(part_number, normalized_revision)` exactly, updates the stored
description when one is supplied (truthy) on the found row, and otherwise
inserts a fresh row.  Returns the table and `(part_id, was_created)`. -/
def get_or_create_part (table : PartsTable) (now : Timestamp) (part_number : String)
    (part_revision : Option String) (part_description : Option String) :
    PartsTable × Nat × Bool :=
  let rev := if pyTruthy part_revision then part_revision.getD "" else ""
  match table.rows.find? (fun p => p.part_number == part_number && p.part_revision == rev) with
  | some existing =>
    let table' :=
      if pyTruthy part_description then
        { table with rows := table.rows.map fun p =>
            if p.id = existing.id then
              { p with part_description := part_description, updated_at := now }
            else p }
      else table
    (table', existing.id, false)
  | none =>
    let newPart : Part :=
      { id := table.next_id, part_number := part_number, part_revision := rev,
        part_description := part_description, created_at := now, updated_at := now }
    ({ rows := table.rows ++ [newPart], next_id := table.next_id + 1 }, table.next_id, true)

/-- C2: the tolerance evaluator passes a go/no-go dimension iff the reading
is exactly 1 (regardless of nominal and tolerances); with both tolerances
present it passes iff `nominal + tol_minus ≤ actual ≤ nominal + tol_plus`,
bounds inclusive; with no tolerances it passes unconditionally. -/
theorem calculate_pass_fail_spec (d : Dimension) (a : ℚ) :
    (d.unit = "go/nogo" → (calculate_pass_fail d a = .pass ↔ a = 1)) ∧
    (d.unit ≠ "go/nogo" → ∀ tp tm, d.tolerance_plus = some tp → d.tolerance_minus = some tm →
      (calculate_pass_fail d a = .pass ↔
        d.nominal_value + tm ≤ a ∧ a ≤ d.nominal_value + tp)) ∧
    (d.unit ≠ "go/nogo" → d.tolerance_plus = none → d.tolerance_minus = none →
      calculate_pass_fail d a = .pass) := by
  refine ⟨?_, ?_, ?_⟩
  · intro h
    rw [calculate_pass_fail, if_pos h]
    split <;> simp_all
  · intro h tp tm htp htm
    rw [calculate_pass_fail, if_neg h]
    simp only [htp, htm]
    split <;> simp_all
  · intro h htp htm
    rw [calculate_pass_fail, if_neg h]
    simp [htp, htm]

/-- Boundary witness for C2: nominal 10, tolerances +1/−1, actual 11
(the upper bound exactly) passes. -/
theorem calculate_pass_fail_spec_witness :
    calculate_pass_fail ⟨10, some 1, some (-1), "mm"⟩ 11 = .pass := by
  have h := (calculate_pass_fail_spec ⟨10, some 1, some (-1), "mm"⟩ 11).2.1
  exact (h (by decide) 1 (-1) rfl rfl).mpr (by norm_num)

/-- C10: a dimension that is not go/no-go and carries exactly one of the two
tolerances passes for every measured value — the one-sided tolerance is
ignored, just as when no tolerances are defined. -/
theorem calculate_pass_fail_one_sided (d : Dimension) (a : ℚ)
    (hunit : d.unit ≠ "go/nogo")
    (h : (d.tolerance_plus.isSome ∧ d.tolerance_minus = none) ∨
         (d.tolerance_plus = none ∧ d.tolerance_minus.isSome)) :
    calculate_pass_fail d a = .pass := by
  rw [calculate_pass_fail, if_neg hunit]
  rcases h with ⟨hp, hm⟩ | ⟨hp, hm⟩
  · rcases Option.isSome_iff_exists.mp hp with ⟨tp, htp⟩
    simp [htp, hm]
  · rcases Option.isSome_iff_exists.mp hm with ⟨tm, htm⟩
    simp [hp, htm]

/-- Witness for C10: plus tolerance only, value far outside it still passes. -/
theorem calculate_pass_fail_one_sided_witness :
    calculate_pass_fail ⟨10, some 1, none, "mm"⟩ 1000 = .pass :=
  calculate_pass_fail_one_sided ⟨10, some 1, none, "mm"⟩ 1000 (by decide)
    (Or.inl ⟨rfl, rfl⟩)

/-- C3: for a positive lot quantity `n` the sampler returns exactly the
positions `1 .. min 5 n`, plus, when `n > 5`, every 10th position from 15 up
to `n`; concretely `[1,2,3,4,5]` for lots of 5 and 12, and
`[1,2,3,4,5,15,25]` for a lot of 25. -/
theorem calculate_exit_control_samples_spec (n : Nat) (hpos : 0 < n) :
    (∀ i, i ∈ calculate_exit_control_samples n ↔
      (1 ≤ i ∧ i ≤ min 5 n) ∨ (5 < n ∧ 15 ≤ i ∧ i ≤ n ∧ (i - 15) % 10 = 0)) ∧
    calculate_exit_control_samples 5 = [1, 2, 3, 4, 5] ∧
    calculate_exit_control_samples 12 = [1, 2, 3, 4, 5] ∧
    calculate_exit_control_samples 25 = [1, 2, 3, 4, 5, 15, 25] := by
  refine ⟨?_, ?_, ?_, ?_⟩
  · intro i
    rw [calculate_exit_control_samples, List.mem_append, List.mem_range'_1]
    split
    · rw [mem_sampleLoop]
      omega
    · rw [List.mem_nil_iff]
      simp only [or_false]
      omega
  · decide
  · rw [calculate_exit_control_samples, if_pos (by norm_num)]
    rw [sampleLoop, if_neg (by norm_num)]
    decide
  · rw [calculate_exit_control_samples, if_pos (by norm_num)]
    rw [sampleLoop, if_pos (by norm_num)]
    rw [sampleLoop, if_pos (by norm_num)]
    rw [sampleLoop, if_neg (by norm_num)]
    decide

/-- Witness for C3 at lot quantity 7: positions 1–5 are sampled and
position 6 is not. -/
theorem calculate_exit_control_samples_spec_witness :
    (5 ∈ calculate_exit_control_samples 7) ∧ ¬ (6 ∈ calculate_exit_control_samples 7) := by
  have h := (calculate_exit_control_samples_spec 7 (by decide)).1
  constructor
  · exact (h 5).mpr (Or.inl (by decide))
  · intro hmem
    rcases (h 6).mp hmem with h1 | h2
    · omega
    · omega

/-- C1 counterexample: moving a completed job (stage `complete`,
`completed_at = some 5`) back to `po_receipt` is accepted, yet
`completed_at` stays `some 5` — it is not cleared, so the claimed invariant
`completed_at` set iff stage is `complete` fails after this accepted
transition. -/
theorem job_update_stage_no_clear_counterexample :
    (job_update_stage 10 (some 1) sampleCompletedJob [] "po_receipt").2.2 = true ∧
    (job_update_stage 10 (some 1) sampleCompletedJob [] "po_receipt").1.workflow_stage
      = "po_receipt" ∧
    (job_update_stage 10 (some 1) sampleCompletedJob [] "po_receipt").1.completed_at
      = some 5 := by
  refine ⟨rfl, rfl, rfl⟩

/-- C1 amended: for every accepted stage transition, `completed_at` is
stamped with the current time when the new stage is `complete`, and is left
unchanged (never cleared) for every other new stage, including when the job
moves away from `complete`. -/
theorem job_update_stage_completed_at (now : Timestamp) (uid : Option Nat) (job : Job)
    (audit : List AuditEntry) (new_stage : String) (h : new_stage ∈ valid_stages) :
    (job_update_stage now uid job audit new_stage).2.2 = true ∧
    (job_update_stage now uid job audit new_stage).1.workflow_stage = new_stage ∧
    (new_stage = "complete" →
      (job_update_stage now uid job audit new_stage).1.completed_at = some now) ∧
    (new_stage ≠ "complete" →
      (job_update_stage now uid job audit new_stage).1.completed_at = job.completed_at) := by
  by_cases hc : new_stage = "complete"
  · subst hc
    simp [job_update_stage, h]
  · simp [job_update_stage, h, hc]

/-- Witness for the amended C1: completing a job stamps `completed_at`, and
holding a completed job keeps the old stamp. -/
theorem job_update_stage_completed_at_witness :
    (job_update_stage 10 (some 1) sampleCompletedJob [] "complete").1.completed_at = some 10 ∧
    (job_update_stage 10 (some 1) sampleCompletedJob [] "on_hold").1.completed_at = some 5 := by
  constructor
  · exact (job_update_stage_completed_at 10 (some 1) sampleCompletedJob [] "complete"
      (by decide)).2.2.1 rfl
  · exact ((job_update_stage_completed_at 10 (some 1) sampleCompletedJob [] "on_hold"
      (by decide)).2.2.2 (by decide)).trans rfl

/-- C8: a stage-update request naming an unrecognized stage is rejected:
the job row is untouched (every field unchanged), no audit entry is
appended, and the operation reports failure. -/
theorem job_update_stage_invalid_stage (now : Timestamp) (uid : Option Nat) (job : Job)
    (audit : List AuditEntry) (new_stage : String) (h : new_stage ∉ valid_stages) :
    job_update_stage now uid job audit new_stage = (job, audit, false) := by
  simp [job_update_stage, if_neg h]

/-- Witness for C8: the stage `"shipped"` is not recognized and changes
nothing. -/
theorem job_update_stage_invalid_stage_witness :
    job_update_stage 10 (some 1) sampleCompletedJob [] "shipped"
      = (sampleCompletedJob, [], false) :=
  job_update_stage_invalid_stage 10 (some 1) sampleCompletedJob [] "shipped" (by decide)

/-- C9: reopening an error report in any status sets `status = 'open'`,
nulls both `resolved_date` and `closed_date`, and leaves the description,
severity, error type, supplier link and origin links unchanged. -/
theorem error_report_update_reopen (now : Timestamp) (er : ErrorReport)
    (dp rc ca : Option String) (at_ : Option Nat) :
    (error_report_update now er "reopen" dp rc ca at_).status = "open" ∧
    (error_report_update now er "reopen" dp rc ca at_).resolved_date = none ∧
    (error_report_update now er "reopen" dp rc ca at_).closed_date = none ∧
    (error_report_update now er "reopen" dp rc ca at_).description = er.description ∧
    (error_report_update now er "reopen" dp rc ca at_).severity = er.severity ∧
    (error_report_update now er "reopen" dp rc ca at_).error_type = er.error_type ∧
    (error_report_update now er "reopen" dp rc ca at_).supplier_id = er.supplier_id ∧
    (error_report_update now er "reopen" dp rc ca at_).material_control_id
      = er.material_control_id ∧
    (error_report_update now er "reopen" dp rc ca at_).external_process_id
      = er.external_process_id := by
  simp [error_report_update]

/-- A material control awaiting its verdict. -/
def samplePendingMC : MaterialControl :=
  { id := 3, job_id := 1, inspector_id := some 2, inspection_date := some 1,
    material_type := "steel", supplier_id := some 9, batch_number := none,
    quantity_received := none, certificate_matches := 1, visual_ok := 1,
    dimensions_ok := none, status := "pending", notes := none, created_at := 0 }

/-- A material control that was already rejected. -/
def sampleRejectedMC : MaterialControl :=
  { samplePendingMC with id := 4, status := "rejected" }

/-- An external process awaiting its verdict. -/
def samplePendingEP : ExternalProcess :=
  { id := 5, job_id := 1, inspector_id := some 2, process_type := "anodizing",
    process_description := none, supplier_id := some 11, sent_date := none,
    received_date := none, inspection_date := some 1, visual_ok := 1,
    thickness_ok := none, color_ok := none, adhesion_ok := none,
    status := "pending", notes := none, created_at := 0, updated_at := 0 }

/-- An external process that was already rejected. -/
def sampleRejectedEP : ExternalProcess :=
  { samplePendingEP with id := 6, status := "rejected" }

/-- C6, evaluated at the failing input: against a `pending` material
control the report is created correctly (`material_supplier`, `open`,
supplier copied), but the claimed status flip raises
`no such column: updated_at` — `material_controls` has no `updated_at`
column, so the record is never set to `rejected`.  The external-process
path, whose table has the column, flips a `pending` record and leaves a
`rejected` one untouched as claimed. -/
theorem material_error_report_no_such_column :
    (material_error_report 10 (some 1) 7 samplePendingMC "major" "bad lot" none).2
      = .error "no such column: updated_at" ∧
    (material_error_report 10 (some 1) 7 samplePendingMC "major" "bad lot" none).1.error_type
      = "material_supplier" ∧
    (material_error_report 10 (some 1) 7 samplePendingMC "major" "bad lot" none).1.status
      = "open" ∧
    (material_error_report 10 (some 1) 7 samplePendingMC "major" "bad lot" none).1.supplier_id
      = samplePendingMC.supplier_id ∧
    (material_error_report 10 (some 1) 8 sampleRejectedMC "major" "bad lot" none).2
      = .ok sampleRejectedMC ∧
    (external_error_report 10 (some 1) 9 samplePendingEP "major" "bad coat" none).2
      = .ok { samplePendingEP with status := "rejected", updated_at := 10 } ∧
    (external_error_report 10 (some 1) 9 samplePendingEP "major" "bad coat" none).1.error_type
      = "external_supplier" ∧
    (external_error_report 10 (some 1) 10 sampleRejectedEP "minor" "x" none).2
      = .ok sampleRejectedEP := by
  refine ⟨rfl, rfl, rfl, rfl, rfl, rfl, rfl, rfl⟩

/-- An exit control under way. -/
def sampleExitControl : ExitControl :=
  { id := 1, job_id := 1, inspector_id := some 1, inspection_date := some 0,
    lot_quantity := 1, overall_status := "in_progress", notes := none, created_at := 0 }

/-- An exit-control sample recorded as a full pass. -/
def samplePassedSample : ExitControlSample :=
  { id := 1, exit_control_id := 1, part_number := 1, dimensions_ok := some true,
    visual_ok := some true, surface_ok := some true, overall_pass := some true,
    notes := none, inspected_at := some 1 }

/-- A job that has already been moved back to `po_receipt`. -/
def samplePoReceiptJob : Job :=
  { sampleCompletedJob with workflow_stage := "po_receipt", completed_at := none }

/-- C5 counterexample: completing an exit control whose one sample passed
moves the parent job to `complete` even though the job currently sits in
`po_receipt` — the `UPDATE jobs` in `exit_control_complete` (app.py:3236)
carries no `workflow_stage = 'exit_control'` condition, unlike the one in
`exit_control_record_sample`. -/
theorem exit_control_complete_no_guard_counterexample :
    samplePoReceiptJob.workflow_stage = "po_receipt" ∧
    (exit_control_complete 10 sampleExitControl [samplePassedSample] samplePoReceiptJob).2
      = true ∧
    (exit_control_complete 10 sampleExitControl [samplePassedSample]
        samplePoReceiptJob).1.2.workflow_stage = "complete" := by
  refine ⟨rfl, rfl, rfl⟩

/-- C5 amended: manual completion fails when any sample lacks a verdict,
leaving the exit control and the job unchanged; otherwise it sets the lot
verdict from the samples and, when all samples passed, moves the parent
job to `complete` with `completed_at` stamped unconditionally — without
checking that the job is still in `exit_control`. -/
theorem exit_control_complete_spec (now : Timestamp) (ec : ExitControl)
    (samples : List ExitControlSample) (job : Job) :
    ((∃ t ∈ samples, t.overall_pass = none) →
      exit_control_complete now ec samples job = ((ec, job), false)) ∧
    ((∀ t ∈ samples, t.overall_pass ≠ none) →
      (exit_control_complete now ec samples job).2 = true ∧
      (exit_control_complete now ec samples job).1.1.overall_status =
        (if samples.all (fun t => t.overall_pass == some true) then "passed"
         else "failed") ∧
      (samples.all (fun t => t.overall_pass == some true) = true →
        (exit_control_complete now ec samples job).1.2.workflow_stage = "complete" ∧
        (exit_control_complete now ec samples job).1.2.completed_at = some now) ∧
      (samples.all (fun t => t.overall_pass == some true) = false →
        (exit_control_complete now ec samples job).1.2 = job)) := by
  have hkey : ((samples.filter fun t => t.overall_pass == none).isEmpty = true)
      ↔ ∀ t ∈ samples, t.overall_pass ≠ none := by
    rw [List.isEmpty_iff, List.filter_eq_nil_iff]
    simp
  constructor
  · rintro ⟨t, ht, hnone⟩
    have hne : (samples.filter fun t => t.overall_pass == none).isEmpty = false := by
      rcases h : (samples.filter fun t => t.overall_pass == none).isEmpty with _ | _
      · exact h
      · exact absurd hnone (hkey.mp h t ht)
    simp [exit_control_complete, hne]
  · intro hall
    have hempty : (samples.filter fun t => t.overall_pass == none).isEmpty = true :=
      hkey.mpr hall
    by_cases hp : samples.all (fun t => t.overall_pass == some true) = true
    · simp [exit_control_complete, hempty, hp]
    · have hp' : samples.all (fun t => t.overall_pass == some true) = false :=
        Bool.eq_false_iff.mpr hp
      simp [exit_control_complete, hempty, hp']

/-- Witness for the amended C5: with its single sample passed the lot is
declared `passed` and the job completed. -/
theorem exit_control_complete_spec_witness :
    (exit_control_complete 10 sampleExitControl [samplePassedSample]
        samplePoReceiptJob).1.1.overall_status = "passed" ∧
    (exit_control_complete 10 sampleExitControl [samplePassedSample]
        samplePoReceiptJob).1.2.completed_at = some 10 := by
  have h := (exit_control_complete_spec 10 sampleExitControl [samplePassedSample]
    samplePoReceiptJob).2 (by decide)
  exact ⟨h.2.1.trans rfl, (h.2.2.1 (by decide)).2⟩

/-- Every row of the updated sample list carrying the recorded id holds the
strict AND of the three sub-checks as its `overall_pass`. -/
theorem overall_pass_recordSampleUpdate (now : Timestamp) (sample_id : Nat)
    (d v s : Bool) (notes : String) (samples : List ExitControlSample) :
    ∀ t ∈ recordSampleUpdate now sample_id d v s notes samples,
      t.id = sample_id → t.overall_pass = some (d && v && s) := by
  intro t ht hid
  simp only [recordSampleUpdate] at ht
  rcases List.mem_map.mp ht with ⟨u, hu, rfl⟩
  by_cases h : u.id = sample_id
  · simp [h]
  · simp only [if_neg h] at hid ⊢
    exact absurd hid h

/-- C4: recording a sample stores the strict AND of the three sub-checks as
its verdict; when afterwards every sample of the lot is inspected, the lot
becomes `passed` when all samples passed and `failed` otherwise, and a
fully passing lot completes the parent job (stamping `completed_at`) only
if the job is still in `exit_control`; with an uninspected sample left, or
a failing lot, the job is unchanged. -/
theorem exit_control_record_sample_spec (now : Timestamp) (ec : ExitControl)
    (samples : List ExitControlSample) (job : Job) (sample_id : Nat)
    (d v s : Bool) (notes : String)
    (ec' : ExitControl) (samples' : List ExitControlSample) (job' : Job)
    (hfound : (samples.find? fun t => t.id == sample_id && t.exit_control_id == ec.id).isSome)
    (hrun : exit_control_record_sample now ec samples job sample_id d v s notes
      = (ec', samples', job')) :
    (∀ t ∈ samples', t.id = sample_id → t.overall_pass = some (d && v && s)) ∧
    (samples'.all (fun t => t.overall_pass.isSome) = true →
      ec'.overall_status =
        if samples'.all (fun t => t.overall_pass == some true) then "passed"
        else "failed") ∧
    (samples'.all (fun t => t.overall_pass.isSome) = true →
      samples'.all (fun t => t.overall_pass == some true) = true →
      (job.workflow_stage = "exit_control" →
        job'.workflow_stage = "complete" ∧ job'.completed_at = some now) ∧
      (job.workflow_stage ≠ "exit_control" → job' = job)) ∧
    (samples'.all (fun t => t.overall_pass.isSome) = false →
      job' = job ∧ ec' = ec) ∧
    (samples'.all (fun t => t.overall_pass.isSome) = true →
      samples'.all (fun t => t.overall_pass == some true) = false → job' = job) := by
  rcases Option.isSome_iff_exists.mp hfound with ⟨t0, ht0⟩
  simp only [exit_control_record_sample, ht0] at hrun
  by_cases hins : (recordSampleUpdate now sample_id d v s notes samples).all
      (fun t => t.overall_pass.isSome) = true
  · simp only [if_pos hins] at hrun
    by_cases hp : (recordSampleUpdate now sample_id d v s notes samples).all
        (fun t => t.overall_pass == some true) = true
    · by_cases hst : job.workflow_stage = "exit_control"
      · simp only [if_pos hp, if_pos hst] at hrun
        injection hrun with he hrun2
        injection hrun2 with hs hj
        subst he; subst hs; subst hj
        refine ⟨overall_pass_recordSampleUpdate now sample_id d v s notes samples,
          ?_, ?_, ?_, ?_⟩
        · intro _
          simp [hp]
        · intro _ _
          exact ⟨fun _ => ⟨rfl, rfl⟩, fun hne => absurd hst hne⟩
        · intro hfalse
          simp [hins] at hfalse
        · intro _ hfalse
          simp [hp] at hfalse
      · simp only [if_pos hp, if_neg hst] at hrun
        injection hrun with he hrun2
        injection hrun2 with hs hj
        subst he; subst hs; subst hj
        refine ⟨overall_pass_recordSampleUpdate now sample_id d v s notes samples,
          ?_, ?_, ?_, ?_⟩
        · intro _
          simp [hp]
        · intro _ _
          exact ⟨fun h => absurd h hst, fun _ => rfl⟩
        · intro hfalse
          simp [hins] at hfalse
        · intro _ hfalse
          simp [hp] at hfalse
    · have hpf : (recordSampleUpdate now sample_id d v s notes samples).all
          (fun t => t.overall_pass == some true) = false := Bool.eq_false_iff.mpr hp
      simp only [if_neg hp] at hrun
      injection hrun with he hrun2
      injection hrun2 with hs hj
      subst he; subst hs; subst hj
      refine ⟨overall_pass_recordSampleUpdate now sample_id d v s notes samples,
        ?_, ?_, ?_, ?_⟩
      · intro _
        simp [hpf]
      · intro _ htrue
        exact absurd htrue hp
      · intro hfalse
        simp [hins] at hfalse
      · intro _ _
        rfl
  · simp only [if_neg hins] at hrun
    injection hrun with he hrun2
    injection hrun2 with hs hj
    subst he; subst hs; subst hj
    refine ⟨overall_pass_recordSampleUpdate now sample_id d v s notes samples,
      ?_, ?_, ?_, ?_⟩
    · intro htrue
      exact absurd htrue hins
    · intro htrue _
      exact absurd htrue hins
    · intro _
      exact ⟨rfl, rfl⟩
    · intro htrue _
      exact absurd htrue hins

/-- A still-uninspected exit-control sample. -/
def sampleUninspectedSample : ExitControlSample :=
  { id := 2, exit_control_id := 1, part_number := 2, dimensions_ok := none,
    visual_ok := none, surface_ok := none, overall_pass := none, notes := none,
    inspected_at := none }

/-- A job sitting in `exit_control`. -/
def sampleExitControlJob : Job :=
  { sampleCompletedJob with workflow_stage := "exit_control", completed_at := none }

/-- Witness for C4: recording the last sample of the lot as a full pass
completes the parent job. -/
theorem exit_control_record_sample_spec_witness :
    (exit_control_record_sample 10 sampleExitControl [sampleUninspectedSample]
        sampleExitControlJob 2 true true true "").2.2.workflow_stage = "complete" ∧
    (exit_control_record_sample 10 sampleExitControl [sampleUninspectedSample]
        sampleExitControlJob 2 true true true "").2.2.completed_at = some 10 := by
  have h := exit_control_record_sample_spec 10 sampleExitControl [sampleUninspectedSample]
    sampleExitControlJob 2 true true true ""
    (exit_control_record_sample 10 sampleExitControl [sampleUninspectedSample]
        sampleExitControlJob 2 true true true "").1
    (exit_control_record_sample 10 sampleExitControl [sampleUninspectedSample]
        sampleExitControlJob 2 true true true "").2.1
    (exit_control_record_sample 10 sampleExitControl [sampleUninspectedSample]
        sampleExitControlJob 2 true true true "").2.2
    (by decide) rfl
  exact (h.2.2.1 (by decide) (by decide)).1 rfl

/-- Updating a part's description leaves the identity lookup unchanged:
`find?` on the rewritten rows is the rewrite of `find?` on the rows. -/
theorem find?_desc_update (rows : List Part) (pn rev : String) (pid : Nat)
    (dd : Option String) (nn : Timestamp) :
    ((rows.map fun p => if p.id = pid then
        { p with part_description := dd, updated_at := nn } else p).find?
      fun p => p.part_number == pn && p.part_revision == rev)
    = (rows.find? fun p => p.part_number == pn && p.part_revision == rev).map
        fun p => if p.id = pid then { p with part_description := dd, updated_at := nn }
                 else p := by
  rw [List.find?_map]
  have hcomp : ((fun p : Part => p.part_number == pn && p.part_revision == rev) ∘
      fun p => if p.id = pid then { p with part_description := dd, updated_at := nn }
               else p)
      = fun p : Part => p.part_number == pn && p.part_revision == rev := by
    funext p
    by_cases h : p.id = pid <;> simp [Function.comp, h]
  rw [hcomp]

/-- Evaluating `get_or_create_part` with a falsy revision argument (`None` or `''`)
normalizes the revision to `''` and proceeds on the
`(part_number, '')` identity. -/
theorem get_or_create_part_norm_empty (table : PartsTable) (now : Timestamp) (pn : String)
    (r : Option String) (hr : pyTruthy r = false) (pd : Option String) :
    get_or_create_part table now pn r pd =
      match table.rows.find? (fun p => p.part_number == pn && p.part_revision == "") with
      | some existing =>
        (if pyTruthy pd then
          { table with rows := table.rows.map fun p =>
              if p.id = existing.id then { p with part_description := pd, updated_at := now }
              else p }
         else table, existing.id, false)
      | none =>
        ({ rows := table.rows ++
             [{ id := table.next_id, part_number := pn, part_revision := "",
                part_description := pd, created_at := now, updated_at := now }],
           next_id := table.next_id + 1 }, table.next_id, true) := by
  simp only [get_or_create_part, hr, Bool.false_eq_true, if_false]

/-- Evaluating `get_or_create_part` on a falsy revision, when the identity is found:
at most the found row's description is rewritten, and `(id, false)` is
returned. -/
theorem get_or_create_part_found (table : PartsTable) (now : Timestamp) (pn : String)
    (r : Option String) (pd : Option String) (existing : Part)
    (hr : pyTruthy r = false)
    (hfind : table.rows.find? (fun p => p.part_number == pn && p.part_revision == "")
      = some existing) :
    get_or_create_part table now pn r pd =
      (if pyTruthy pd then
        { table with rows := table.rows.map fun p =>
            if p.id = existing.id then { p with part_description := pd, updated_at := now }
            else p }
       else table, existing.id, false) := by
  rw [get_or_create_part_norm_empty table now pn r hr pd, hfind]

/-- Evaluating `get_or_create_part` on a falsy revision, when the identity is absent:
a fresh row with revision `''` is appended and `(next_id, true)` is
returned. -/
theorem get_or_create_part_notfound (table : PartsTable) (now : Timestamp) (pn : String)
    (r : Option String) (pd : Option String)
    (hr : pyTruthy r = false)
    (hfind : table.rows.find? (fun p => p.part_number == pn && p.part_revision == "")
      = none) :
    get_or_create_part table now pn r pd =
      ({ rows := table.rows ++
           [{ id := table.next_id, part_number := pn, part_revision := "",
              part_description := pd, created_at := now, updated_at := now }],
         next_id := table.next_id + 1 }, table.next_id, true) := by
  rw [get_or_create_part_norm_empty table now pn r hr pd, hfind]

/-- A `resolveOrCreate` call with `None` revision and a non-empty
description on a table that already holds the identity: resolves to the
found row's id, reports `was_created = false`, and the identity lookup
afterwards yields that row with the new description. -/
theorem get_or_create_part_update_desc (table : PartsTable) (now : Timestamp)
    (pn d2 : String) (hd2 : d2 ≠ "") (existing : Part)
    (hfind : table.rows.find? (fun p => p.part_number == pn && p.part_revision == "")
      = some existing) :
    (get_or_create_part table now pn none (some d2)).2.1 = existing.id ∧
    (get_or_create_part table now pn none (some d2)).2.2 = false ∧
    ∃ p, ((get_or_create_part table now pn none (some d2)).1.rows.find?
        fun q => q.part_number == pn && q.part_revision == "") = some p ∧
      p.id = existing.id ∧ p.part_description = some d2 := by
  have hptd2 : pyTruthy (some d2) = true := by
    simp [pyTruthy, hd2]
  rw [get_or_create_part_found table now pn none (some d2) existing rfl hfind,
    if_pos hptd2]
  refine ⟨rfl, rfl, ?_⟩
  dsimp only
  rw [find?_desc_update, hfind]
  dsimp only [Option.map_some']
  rw [if_pos rfl]
  exact ⟨_, rfl, rfl, rfl⟩

/-- C7: resolving `(pn, '')` and then `(pn, None)` hits the same part id,
the second call reports `was_created = false`, and its non-empty
description lands on the stored part. -/
theorem get_or_create_part_merge_revision (table : PartsTable) (now1 now2 : Timestamp)
    (pn d d2 : String) (hd2 : d2 ≠ "") :
    (get_or_create_part (get_or_create_part table now1 pn (some "") (some d)).1
        now2 pn none (some d2)).2.1
      = (get_or_create_part table now1 pn (some "") (some d)).2.1 ∧
    (get_or_create_part (get_or_create_part table now1 pn (some "") (some d)).1
        now2 pn none (some d2)).2.2 = false ∧
    ∃ p, ((get_or_create_part (get_or_create_part table now1 pn (some "") (some d)).1
          now2 pn none (some d2)).1.rows.find?
        fun q => q.part_number == pn && q.part_revision == "") = some p ∧
      p.id = (get_or_create_part table now1 pn (some "") (some d)).2.1 ∧
      p.part_description = some d2 := by
  rcases hfind : table.rows.find?
      (fun p => p.part_number == pn && p.part_revision == "") with _ | existing
  · -- not found: the first call inserts the row, the second finds it
    have h1 := get_or_create_part_notfound table now1 pn (some "") (some d) rfl hfind
    have hfind2 : ((get_or_create_part table now1 pn (some "") (some d)).1.rows.find?
        fun p => p.part_number == pn && p.part_revision == "")
        = some { id := table.next_id, part_number := pn, part_revision := "",
                 part_description := some d, created_at := now1, updated_at := now1 } := by
      rw [h1]
      dsimp only
      rw [List.find?_append, hfind]
      simp
    have h3 := get_or_create_part_update_desc
      (get_or_create_part table now1 pn (some "") (some d)).1 now2 pn d2 hd2 _ hfind2
    refine ⟨?_, h3.2.1, ?_⟩
    · rw [h3.1, h1]
    · obtain ⟨p, hp1, hp2, hp3⟩ := h3.2.2
      exact ⟨p, hp1, by rw [hp2, h1], hp3⟩
  · -- found: the first call keeps the row (at most rewriting its
    -- description), and the second finds it again
    have h1 := get_or_create_part_found table now1 pn (some "") (some d) existing rfl hfind
    by_cases hd : pyTruthy (some d) = true
    · rw [if_pos hd] at h1
      have hfind2 : ((get_or_create_part table now1 pn (some "") (some d)).1.rows.find?
          fun p => p.part_number == pn && p.part_revision == "")
          = some { existing with part_description := some d, updated_at := now1 } := by
        rw [h1]
        dsimp only
        rw [find?_desc_update, hfind]
        dsimp only [Option.map_some']
        rw [if_pos rfl]
      have h3 := get_or_create_part_update_desc
        (get_or_create_part table now1 pn (some "") (some d)).1 now2 pn d2 hd2 _ hfind2
      refine ⟨?_, h3.2.1, ?_⟩
      · rw [h3.1, h1]
      · obtain ⟨p, hp1, hp2, hp3⟩ := h3.2.2
        exact ⟨p, hp1, by rw [hp2, h1], hp3⟩
    · rw [if_neg hd] at h1
      have hfind2 : ((get_or_create_part table now1 pn (some "") (some d)).1.rows.find?
          fun p => p.part_number == pn && p.part_revision == "") = some existing := by
        rw [h1]
        exact hfind
      have h3 := get_or_create_part_update_desc
        (get_or_create_part table now1 pn (some "") (some d)).1 now2 pn d2 hd2 _ hfind2
      refine ⟨?_, h3.2.1, ?_⟩
      · rw [h3.1, h1]
      · obtain ⟨p, hp1, hp2, hp3⟩ := h3.2.2
        exact ⟨p, hp1, by rw [hp2, h1], hp3⟩

/-- Witness for C7 on an initially empty parts table. -/
theorem get_or_create_part_merge_revision_witness :
    (get_or_create_part (get_or_create_part ⟨[], 1⟩ 0 "X-1" (some "") (some "d")).1
        1 "X-1" none (some "d2")).2.1
      = (get_or_create_part ⟨[], 1⟩ 0 "X-1" (some "") (some "d")).2.1 ∧
    (get_or_create_part (get_or_create_part ⟨[], 1⟩ 0 "X-1" (some "") (some "d")).1
        1 "X-1" none (some "d2")).2.2 = false :=
  ⟨(get_or_create_part_merge_revision ⟨[], 1⟩ 0 1 "X-1" "d" "d2" (by decide)).1,
   (get_or_create_part_merge_revision ⟨[], 1⟩ 0 1 "X-1" "d" "d2" (by decide)).2.1⟩

end Millpoint
